import Mathlib

/-!
# Verification of the YouTube queue uploader (`uploader.py`)

A shallow embedding of the pure core of `uploader.py`: queue-line
classification, queue pruning (`remove_uploaded_links`), Drive-URL file-id
extraction (`extract_drive_file_id`), the download size gate
(`download_video`), schedule computation (`calculate_schedule_time`),
upload metadata construction (`upload_video`), the best-effort IP lookup
(`get_my_ip_info`) and the per-run orchestration (`run`).  External
effects (HTTP responses, download outcomes, upload outcomes) are passed in
as explicit environment values; files are modelled as the list of raw
lines `readlines()` would return.
-/

namespace Uploader

/-! ## Python string primitives used by the script -/

/-- Characters stripped by Python `str.strip()` (ASCII whitespace). -/
def isPySpace (c : Char) : Bool :=
  c = ' ' || c = '\t' || c = '\n' || c = '\r' || c = '\x0b' || c = '\x0c'

/-- Drop trailing Python whitespace (the right half of `str.strip()`). -/
def rstripL : List Char → List Char
  | [] => []
  | c :: cs =>
    match rstripL cs with
    | [] => if isPySpace c then [] else [c]
    | d :: ds => c :: d :: ds

/-- Python `line.strip()` on the characters of a line: drop leading and
trailing whitespace. -/
def pyStripL (l : List Char) : List Char :=
  rstripL (l.dropWhile isPySpace)

/-- Python `line.strip()`. -/
def pyStrip (s : String) : String :=
  String.mk (pyStripL s.data)

/-- Python truthiness of a string: nonempty. -/
def pyTruthy (s : String) : Bool :=
  !s.data.isEmpty

/-- Python `s.startswith('#')`. -/
def startsWithHash (s : String) : Bool :=
  match s.data with
  | [] => false
  | c :: _ => c = '#'

/-! ## Queue line classification

`load_video_links` (line 185) keeps a line when `line.strip()` is truthy
and the RAW line does not start with `#`; `remove_uploaded_links`
(line 357) treats a line as a video link when `line.strip()` is truthy and
the STRIPPED line does not start with `#`. -/

/-- The filter of `load_video_links`: `line.strip() and not line.startswith('#')`. -/
def readerKeeps (line : String) : Bool :=
  pyTruthy (pyStrip line) && !(startsWithHash line)

/-- Embedding of `load_video_links`: the stripped kept lines, in file order (uploader.py line 185). -/
def load_video_links (lines : List String) : List String :=
  (lines.filter readerKeeps).map pyStrip

/-- The link-line test of `remove_uploaded_links`:
`line.strip() and not line.strip().startswith('#')` (uploader.py line 357). -/
def prunerLink (line : String) : Bool :=
  pyTruthy (pyStrip line) && !(startsWithHash (pyStrip line))

/-- The separation loop of `remove_uploaded_links` (uploader.py lines
356-360): one pass over the lines appending each either to `video_lines`
or to `other_lines`, keeping file order inside each list. -/
def splitLines : List String → List String × List String
  | [] => ([], [])
  | l :: rest =>
    let p := splitLines rest
    if prunerLink l then (l :: p.1, p.2) else (p.1, l :: p.2)

/-- Embedding of `remove_uploaded_links` (uploader.py lines 342-389): partition the raw
lines into video lines and other lines; when at least `count` video lines
exist, rewrite the file as all other lines followed by the video lines
with the first `count` dropped and return `true`; otherwise warn and
return `false`, leaving the file untouched. -/
def remove_uploaded_links (lines : List String) (count : Nat) :
    List String × Bool :=
  let p := splitLines lines
  let video_lines := p.1
  let other_lines := p.2
  if count ≤ video_lines.length then
    (other_lines ++ video_lines.drop count, true)
  else
    (lines, false)

/-! ## Drive URL file-id extraction (`extract_drive_file_id`, lines 191-203) -/

/-- The character class `[a-zA-Z0-9_-]` of the three regexes. -/
def isIdChar (c : Char) : Bool :=
  c.isAlpha || c.isDigit || c = '_' || c = '-'

/-- If `pat` is a prefix of `s`, return the remainder of `s`. -/
def stripPre : List Char → List Char → Option (List Char)
  | [], s => some s
  | _ :: _, [] => none
  | p :: ps, c :: cs => if p = c then stripPre ps cs else none

/-- Model of `re.search` of the regex `pat([a-zA-Z0-9_-]+)` where `pat` is a
literal: find the leftmost position where `pat` occurs followed by at
least one id character, and return the maximal id-character run after it. -/
def searchPat (pat : List Char) : List Char → Option (List Char)
  | [] => none
  | a :: rest =>
    match stripPre pat (a :: rest) with
    | some (c :: tail) =>
      if isIdChar c then some (c :: tail.takeWhile isIdChar) else searchPat pat rest
    | _ => searchPat pat rest

/-- Embedding of `extract_drive_file_id` (uploader.py lines 191-203): try the three
patterns in order and return the first captured group, else `None`. -/
def extract_drive_file_id (url : String) : Option String :=
  match searchPat "/file/d/".data url.data with
  | some g => some (String.mk g)
  | none =>
    match searchPat "id=".data url.data with
    | some g => some (String.mk g)
    | none =>
      match searchPat "/d/".data url.data with
      | some g => some (String.mk g)
      | none => none

/-! ## Download (`download_video`, lines 205-240)

The effect of `gdown.download` is passed in as a `FetchOutcome`: the call
raised, or left no file on disk, or left a file of a given byte size. -/

/-- Outcome of the `gdown.download` call for one item. -/
inductive FetchOutcome
  | error
  | missing
  | file (size : Nat)
deriving Repr, DecidableEq

/-- Embedding of `download_video` (uploader.py lines 205-240).  Returns the local path
when the download is accepted, and a flag recording whether an undersized
file was deleted (`os.remove` on the `< 1 MB` branch).  The size test
`os.path.getsize(output) / (1024*1024) < 1` holds exactly when the byte
size is below `1048576`. -/
def download_video (drive_url : String) (index : Nat) (outcome : FetchOutcome) :
    Option String × Bool :=
  match extract_drive_file_id drive_url with
  | none => (none, false)
  | some _ =>
    match outcome with
    | .error => (none, false)
    | .missing => (none, false)
    | .file size =>
      if size < 1048576 then (none, true)
      else (some ("video_" ++ toString (index + 1) ++ ".mp4"), false)

/-! ## Schedule computation (`calculate_schedule_time`, lines 242-272)

A Python `datetime` with seconds and microseconds zeroed is modelled by
its proleptic-Gregorian ordinal (`date.toordinal`, 0001-01-01 = 1) and the
minute of the day.  `timedelta(days=180)` adds to the ordinal;
`timedelta(hours=6)` subtracts 360 minutes with borrow across days. -/

/-- A Python datetime at second/microsecond zero. -/
structure PyDateTime where
  day : Nat
  minuteOfDay : Nat
deriving Repr, DecidableEq

/-- Python `dt + timedelta(days=n)`: the time of day is unchanged. -/
def addDays (t : PyDateTime) (n : Nat) : PyDateTime :=
  { day := t.day + n, minuteOfDay := t.minuteOfDay }

/-- Python `dt.replace(hour=h, minute=m, second=0, microsecond=0)`; `None` models
the `ValueError` Python raises on an out-of-range field. -/
def replaceHM (t : PyDateTime) (hour minute : Nat) : Option PyDateTime :=
  if hour ≤ 23 && minute ≤ 59 then
    some { day := t.day, minuteOfDay := hour * 60 + minute }
  else
    none

/-- Total minutes since the day-0 midnight, for datetime arithmetic. -/
def totalMinutes (t : PyDateTime) : Nat :=
  t.day * 1440 + t.minuteOfDay

/-- Python `dt - timedelta(minutes=n)`. -/
def subMinutes (t : PyDateTime) (n : Nat) : PyDateTime :=
  let m := totalMinutes t - n
  { day := m / 1440, minuteOfDay := m % 1440 }

/-- Proleptic-Gregorian ordinal to `(year, month, day)` (the calendar
computation behind `strftime('%Y-%m-%d')`), via the standard era/day-of-era
decomposition; all intermediate values are nonnegative for `ord ≥ 1`. -/
def civilFromOrdinal (ord : Nat) : Nat × Nat × Nat :=
  let z := ord + 305
  let era := z / 146097
  let doe := z % 146097
  let yoe := (doe - doe / 1460 + doe / 36524 - doe / 146096) / 365
  let y := yoe + era * 400
  let doy := doe - (365 * yoe + yoe / 4 - yoe / 100)
  let mp := (5 * doy + 2) / 153
  let d := doy - (153 * mp + 2) / 5 + 1
  let m := if mp < 10 then mp + 3 else mp - 9
  (if m ≤ 2 then y + 1 else y, m, d)

/-- Zero-pad a number to width `w`. -/
def padZ (w : Nat) (n : Nat) : String :=
  let s := toString n
  String.mk (List.replicate (w - s.data.length) '0') ++ s

/-- Python `strftime('%Y-%m-%dT%H:%M:%S.000Z')` on a datetime whose second and
microsecond are zero (uploader.py line 272). -/
def strftimeUTC (t : PyDateTime) : String :=
  let c := civilFromOrdinal t.day
  padZ 4 c.1 ++ "-" ++ padZ 2 c.2.1 ++ "-" ++ padZ 2 c.2.2 ++ "T" ++
    padZ 2 (t.minuteOfDay / 60) ++ ":" ++ padZ 2 (t.minuteOfDay % 60) ++
    ":00.000Z"

/-- Split characters at each occurrence of `sep`, with `acc` holding the
current field reversed. -/
def splitCharAux (sep : Char) : List Char → List Char → List (List Char)
  | [], acc => [acc.reverse]
  | c :: cs, acc =>
    if c = sep then acc.reverse :: splitCharAux sep cs []
    else splitCharAux sep cs (c :: acc)

/-- Python `s.split(':')`. -/
def pySplitColon (s : String) : List String :=
  (splitCharAux ':' s.data []).map String.mk

/-- Helper for `pyInt`: fold decimal digits, failing on a non-digit. -/
def digitsToNat : List Char → Nat → Option Nat
  | [], acc => some acc
  | c :: cs, acc =>
    if c.isDigit then digitsToNat cs (acc * 10 + (c.toNat - 48)) else none

/-- Python `int(s)` on the unsigned decimal strings the script feeds it;
`none` models the `ValueError` on a malformed string. -/
def pyInt (s : String) : Option Nat :=
  match s.data with
  | [] => none
  | l => digitsToNat l 0

/-- The configuration fields set in `YouTubeUploader.__init__`
(uploader.py lines 39-42). -/
structure Config where
  videos_per_day : Nat
  schedule_time : String
  schedule_gap_minutes : Nat
deriving Repr, DecidableEq

/-- The values hard-coded in `__init__`. -/
def defaultConfig : Config :=
  { videos_per_day := 3, schedule_time := "20:00", schedule_gap_minutes := 15 }

/-- Embedding of `calculate_schedule_time` (uploader.py lines 242-272): add 180 days to
`now`, parse `schedule_time` as `hour:minute`, add the within-batch gap
`(video_index % videos_per_day) * schedule_gap_minutes` to the minute,
roll overflow into the hour, and return the UTC string (local minus 6
hours, i.e. 360 minutes) together with the local datetime.  `none` models
the exceptions Python would raise on an unparsable `schedule_time` or an
out-of-range `replace`. -/
def calculate_schedule_time (cfg : Config) (now : PyDateTime)
    (video_index : Nat) : Option (String × PyDateTime) :=
  let schedule_date := addDays now 180
  match pySplitColon cfg.schedule_time with
  | [hs, ms] =>
    match pyInt hs, pyInt ms with
    | some hour, some minute =>
      let gap := (video_index % cfg.videos_per_day) * cfg.schedule_gap_minutes
      let minute := minute + gap
      let hm := if 60 ≤ minute then (hour + minute / 60, minute % 60)
                else (hour, minute)
      match replaceHM schedule_date hm.1 hm.2 with
      | some schedule_datetime =>
        let utc_datetime := subMinutes schedule_datetime 360
        some (strftimeUTC utc_datetime, schedule_datetime)
      | none => none
    | _, _ => none
  | _ => none

/-! ## Upload metadata (`upload_video`, lines 274-340)

`Path(video_path).stem` and the request body built at lines 288-300.  The
API call itself is an external effect; its outcome (exception or created
video id) is passed in as an `UploadOutcome`. -/

/-- Python `PurePath.name`: the last nonempty component of a path. -/
def pathBaseName (s : String) : String :=
  match (((splitCharAux '/' s.data []).map String.mk).filter
      (fun c => !c.isEmpty)).getLast? with
  | some n => n
  | none => ""

/-- Index of the last `'.'` in a list of characters, if any. -/
def rfindDot (l : List Char) : Option Nat :=
  match l.reverse.findIdx? (fun c => c = '.') with
  | some j => some (l.length - 1 - j)
  | none => none

/-- Python `Path(video_path).stem`: the final component with its last suffix
removed; a dot at index 0 or at the very end does not start a suffix. -/
def pathStem (s : String) : String :=
  let name := pathBaseName s
  match rfindDot name.data with
  | some i =>
    if 0 < i ∧ i < name.data.length - 1 then String.mk (name.data.take i)
    else name
  | none => name

/-- The `snippet` part of the request body (uploader.py lines 289-294). -/
structure Snippet where
  title : String
  description : String
  tags : List String
  categoryId : String
deriving Repr, DecidableEq

/-- The `status` part of the request body (uploader.py lines 295-299). -/
structure StatusBody where
  privacyStatus : String
  publishAt : String
  selfDeclaredMadeForKids : Bool
deriving Repr, DecidableEq

/-- The request body sent to `videos().insert` (uploader.py lines 288-300). -/
structure VideoBody where
  snippet : Snippet
  status : StatusBody
deriving Repr, DecidableEq

/-- The metadata `upload_video` builds for a local file and batch index
(uploader.py lines 277-300); `none` models an exception escaping from
`calculate_schedule_time`, which runs before the `try` block. -/
def buildBody (cfg : Config) (now : PyDateTime) (video_path : String)
    (video_index : Nat) : Option VideoBody :=
  match calculate_schedule_time cfg now video_index with
  | none => none
  | some su =>
    some { snippet := { title := pathStem video_path, description := "",
                        tags := [], categoryId := "22" },
           status := { privacyStatus := "private", publishAt := su.1,
                       selfDeclaredMadeForKids := false } }

/-- Outcome of the chunked insert call for one item. -/
inductive UploadOutcome
  | failure
  | success (video_id : String)
deriving Repr, DecidableEq

/-- The dictionary `upload_video` returns on success (uploader.py lines
331-336); `scheduled_time` keeps the local schedule datetime. -/
structure UploadResult where
  video_id : String
  title : String
  url : String
  scheduled_time : PyDateTime
deriving Repr, DecidableEq

/-- Embedding of `upload_video` (uploader.py lines 274-340): compute the schedule,
build the body, run the insert; an exception during the upload is caught
and yields `None`. -/
def upload_video (cfg : Config) (now : PyDateTime) (video_path : String)
    (video_index : Nat) (outcome : UploadOutcome) : Option UploadResult :=
  match calculate_schedule_time cfg now video_index with
  | none => none
  | some su =>
    match outcome with
    | .failure => none
    | .success vid =>
      some { video_id := vid, title := pathStem video_path,
             url := "https://www.youtube.com/watch?v=" ++ vid,
             scheduled_time := su.2 }

/-! ## IP / geolocation lookup (`get_my_ip_info`, lines 58-113) -/

/-- The network/geo fields the script reports. -/
structure IpInfo where
  ip : String
  city : String
  region : String
  country : String
  org : String
deriving Repr, DecidableEq

/-- The initial dictionary: every field `"Unknown"`. -/
def unknownIpInfo : IpInfo :=
  { ip := "Unknown", city := "Unknown", region := "Unknown",
    country := "Unknown", org := "Unknown" }

/-- Response of one IP-echo endpoint: the request raised, or returned a
JSON object with optional keys `ip` and `ip_addr`. -/
inductive IpResponse
  | failure
  | json (ip : Option String) (ip_addr : Option String)
deriving Repr, DecidableEq

/-- Response of the geolocation endpoint: the request raised, or returned
a JSON object with a status flag and optional location fields. -/
inductive GeoResponse
  | failure
  | json (ok : Bool) (city regionName country isp : Option String)
deriving Repr, DecidableEq

/-- The loop at uploader.py lines 79-95: try each endpoint in turn, stop
at the first response carrying an `ip` or `ip_addr` key. -/
def firstIp : List IpResponse → IpInfo → IpInfo
  | [], info => info
  | .failure :: rest, info => firstIp rest info
  | .json ipv ipa :: rest, info =>
    match ipv with
    | some v => { info with ip := v }
    | none =>
      match ipa with
      | some v => { info with ip := v }
      | none => firstIp rest info

/-- The geo lookup at uploader.py lines 98-111: on a successful response,
fill each field with its value or `"Unknown"`. -/
def applyGeo (geo : GeoResponse) (info : IpInfo) : IpInfo :=
  match geo with
  | .failure => info
  | .json ok city regionName country isp =>
    if ok then
      { info with city := city.getD "Unknown",
                  region := regionName.getD "Unknown",
                  country := country.getD "Unknown",
                  org := isp.getD "Unknown" }
    else info

/-- Embedding of `get_my_ip_info` (uploader.py lines 58-113): only the first two of the
five configured endpoints are queried (`for api in apis[:2]`); the geo
lookup runs only when an IP was found. -/
def get_my_ip_info (resps : List IpResponse) (geo : GeoResponse) : IpInfo :=
  let info := firstIp (resps.take 2) unknownIpInfo
  if info.ip ≠ "Unknown" then applyGeo geo info else info

/-! ## Tracker and run orchestration (`run`, lines 391-521) -/

/-- One entry of `upload_history` (uploader.py lines 463-467). -/
structure SessionRecord where
  videos : List UploadResult
  ip_info : IpInfo
deriving Repr, DecidableEq

/-- The tracker JSON (uploader.py lines 169-174). -/
structure Tracker where
  channel_id : String
  uploaded_count : Nat
  last_run_date : Option PyDateTime
  upload_history : List SessionRecord
deriving Repr, DecidableEq

/-- External outcomes for one batch item: what `gdown` did and what the
insert call did. -/
structure ItemEnv where
  fetch : FetchOutcome
  upload : UploadOutcome
deriving Repr, DecidableEq

/-- The loop at uploader.py lines 431-455: for each of today's links,
download then upload; on success append the result and increment the
count, otherwise skip the item.  `i` is the enumeration index, `count` the
running `uploaded_count`. -/
def processBatch (cfg : Config) (now : PyDateTime) (envs : Nat → ItemEnv) :
    List String → Nat → Nat → List UploadResult → List UploadResult × Nat
  | [], _, count, acc => (acc, count)
  | url :: rest, i, count, acc =>
    match (download_video url i (envs i).fetch).1 with
    | none => processBatch cfg now envs rest (i + 1) count acc
    | some path =>
      match upload_video cfg now path i (envs i).upload with
      | none => processBatch cfg now envs rest (i + 1) count acc
      | some r => processBatch cfg now envs rest (i + 1) (count + 1) (acc ++ [r])

/-- What one run leaves behind: the tracker, the queue lines, the upload
results, and whether the run reached the persistence step (a run that
exits early on an empty queue does not). -/
structure RunOutcome where
  tracker : Tracker
  queue : List String
  results : List UploadResult
  persisted : Bool
deriving Repr, DecidableEq

/-- Embedding of `run` (uploader.py lines 391-521): look up IP info, load the queue,
return early if it is empty; otherwise process the first
`videos_per_day` links, prune as many link lines as successful uploads
(only when there was at least one), and update the tracker with the new
count, the run date and one appended session record. -/
def run (cfg : Config) (now : PyDateTime) (resps : List IpResponse)
    (geo : GeoResponse) (envs : Nat → ItemEnv) (tracker : Tracker)
    (queueLines : List String) : RunOutcome :=
  let ip_info := get_my_ip_info resps geo
  let video_links := load_video_links queueLines
  if video_links.isEmpty then
    { tracker := tracker, queue := queueLines, results := [], persisted := false }
  else
    let today_count := min cfg.videos_per_day video_links.length
    let today_videos := video_links.take today_count
    let pr := processBatch cfg now envs today_videos 0 tracker.uploaded_count []
    let upload_results := pr.1
    let queueAfter :=
      if !upload_results.isEmpty then
        (remove_uploaded_links queueLines upload_results.length).1
      else queueLines
    let tracker' := { tracker with
      uploaded_count := pr.2,
      last_run_date := some now,
      upload_history := tracker.upload_history ++
        [{ videos := upload_results, ip_info := ip_info }] }
    { tracker := tracker', queue := queueAfter, results := upload_results,
      persisted := true }

/-- The environment of one run: the wall clock and all external responses. -/
structure RunEnv where
  now : PyDateTime
  resps : List IpResponse
  geo : GeoResponse
  items : Nat → ItemEnv

/-- Iterate `run` over a sequence of runs, threading tracker and queue. -/
def runMany (cfg : Config) : List RunEnv → Tracker → List String →
    Tracker × List String
  | [], t, q => (t, q)
  | e :: es, t, q =>
    let o := run cfg e.now e.resps e.geo e.items t q
    runMany cfg es o.tracker o.queue

/-- The per-run figures of a sequence of runs: each run's number of
successful uploads and whether it reached the persistence step. -/
def runTrace (cfg : Config) : List RunEnv → Tracker → List String →
    List (Nat × Bool)
  | [], _, _ => []
  | e :: es, t, q =>
    let o := run cfg e.now e.resps e.geo e.items t q
    (o.results.length, o.persisted) :: runTrace cfg es o.tracker o.queue

/-! ## Helper lemmas -/

/-- The separation loop computes the two filters of the line list. -/
lemma splitLines_eq (lines : List String) :
    splitLines lines =
      (lines.filter prunerLink, lines.filter (fun l => !(prunerLink l))) := by
  induction lines with
  | nil => rfl
  | cons l rest ih =>
    cases h : prunerLink l <;> simp [splitLines, ih, List.filter_cons, h]

/-- A line that starts with `#` still starts with `#` after stripping. -/
lemma startsWithHash_pyStrip (line : String)
    (h : startsWithHash line = true) :
    startsWithHash (pyStrip line) = true := by
  rcases hl : line.data with _ | ⟨c, rest⟩
  · simp [startsWithHash, hl] at h
  · have hc : c = '#' := by simpa [startsWithHash, hl] using h
    have hns : isPySpace c = false := by subst hc; decide
    simp only [pyStrip, pyStripL, hl, List.dropWhile_cons, hns]
    cases hr : rstripL rest with
    | nil =>
      simp only [rstripL, hr, hns, startsWithHash, hc]
      decide
    | cons d ds =>
      simp [rstripL, hr, startsWithHash, hc]

/-- Reassembling a datetime after subtracting minutes loses nothing: the
total-minute value of `subMinutes t n` is `totalMinutes t - n`. -/
lemma totalMinutes_subMinutes (t : PyDateTime) (n : Nat) :
    totalMinutes (subMinutes t n) = totalMinutes t - n := by
  simp only [subMinutes, totalMinutes]
  omega

/-- With the hard-coded configuration, the schedule computation always
succeeds and returns the local datetime at `now + 180` days,
`20:00 + (i % 3) * 15` minutes, paired with its UTC rendering. -/
lemma calculate_default (now : PyDateTime) (i : Nat) :
    calculate_schedule_time defaultConfig now i =
      some (strftimeUTC (subMinutes ⟨now.day + 180, 1200 + (i % 3) * 15⟩ 360),
            ⟨now.day + 180, 1200 + (i % 3) * 15⟩) := by
  have h3 : i % 3 < 3 := Nat.mod_lt _ (by norm_num)
  have hsplit : pySplitColon "20:00" = ["20", "00"] := by decide
  have h20 : pyInt "20" = some 20 := by decide
  have h00 : pyInt "00" = some 0 := by decide
  simp only [calculate_schedule_time, defaultConfig, hsplit, h20, h00]
  rw [if_neg (by omega)]
  simp only [replaceHM, addDays]
  rw [if_pos (by simp; omega)]
  have : 20 * 60 + (0 + i % 3 * 15) = 1200 + i % 3 * 15 := by omega
  simp [this]

/-! ## Claim theorems -/

/-- C2: for every queue file and every count `K` with at least `K` link
lines, pruning removes exactly the first `K` link lines in file order,
writes every comment/blank line verbatim as a prefix of the rewritten
file, keeps the remaining link lines after them in their original
relative order, and reports success. -/
theorem pruning_removes_first_K (lines : List String) (K : Nat)
    (h : K ≤ (lines.filter prunerLink).length) :
    remove_uploaded_links lines K =
      (lines.filter (fun l => !(prunerLink l)) ++
        (lines.filter prunerLink).drop K, true) := by
  simp only [remove_uploaded_links, splitLines_eq]
  rw [if_pos h]

/-- Witness for C2 on a concrete three-line queue with one comment. -/
theorem pruning_removes_first_K_witness :
    1 ≤ ((["# keep\n", "linkA\n", "linkB\n"].filter prunerLink).length) ∧
    remove_uploaded_links ["# keep\n", "linkA\n", "linkB\n"] 1 =
      (["# keep\n", "linkB\n"], true) := by
  refine ⟨by decide, ?_⟩
  rw [pruning_removes_first_K ["# keep\n", "linkA\n", "linkB\n"] 1 (by decide)]
  decide

/-- C4: for every queue file and count `K`, if fewer than `K` link lines
exist, pruning reports failure and leaves the line list unchanged. -/
theorem pruning_noop_when_too_few (lines : List String) (K : Nat)
    (h : (lines.filter prunerLink).length < K) :
    remove_uploaded_links lines K = (lines, false) := by
  simp only [remove_uploaded_links, splitLines_eq]
  rw [if_neg (by omega)]

/-- Witness for C4 on a concrete one-link queue pruned by two. -/
theorem pruning_noop_when_too_few_witness :
    ((["# keep\n", "linkA\n"].filter prunerLink).length < 2) ∧
    remove_uploaded_links ["# keep\n", "linkA\n"] 2 =
      (["# keep\n", "linkA\n"], false) := by
  refine ⟨by decide, ?_⟩
  rw [pruning_noop_when_too_few ["# keep\n", "linkA\n"] 2 (by decide)]

/-- C10 counterexample: a comment line with leading whitespace before the
`#` is kept (as a link) by the queue reader but classified as a
comment/blank line by the pruner, so the reader's link count and the
pruner's link-line count differ on the same file. -/
theorem reader_pruner_disagree :
    readerKeeps "  #comment\n" = true ∧
    prunerLink "  #comment\n" = false ∧
    (load_video_links ["  #comment\n"]).length = 1 ∧
    ((["  #comment\n"].filter prunerLink)).length = 0 := by
  decide

/-- C10 amended: the reader and the pruner classify a line identically
unless its stripped form starts with `#` while the raw line does not
(i.e. unless there is leading whitespace before a `#`). -/
theorem reader_pruner_agree_without_indented_comments (line : String)
    (h : startsWithHash (pyStrip line) = true → startsWithHash line = true) :
    readerKeeps line = prunerLink line := by
  simp only [readerKeeps, prunerLink]
  cases ht : pyTruthy (pyStrip line)
  · simp
  · simp only [Bool.true_and]
    cases hraw : startsWithHash line
    · cases hstrip : startsWithHash (pyStrip line)
      · rfl
      · exact absurd (h hstrip) (by simp [hraw])
    · rw [startsWithHash_pyStrip line hraw]

/-- Witness for the C10 amended claim on an ordinary link line. -/
theorem reader_pruner_agree_witness :
    readerKeeps "https://drive.google.com/file/d/ABC/view\n" =
      prunerLink "https://drive.google.com/file/d/ABC/view\n" :=
  reader_pruner_agree_without_indented_comments
    "https://drive.google.com/file/d/ABC/view\n" (by decide)

/-- C6: for a download that leaves a local file, a size strictly below
1 MB (`1048576` bytes) is rejected — no path is returned and the file is
removed — while a size at or above 1 MB is accepted and the local path is
returned. -/
theorem download_size_gate (url : String) (i : Nat) (size : Nat)
    (hid : (extract_drive_file_id url).isSome = true) :
    (size < 1048576 →
      download_video url i (.file size) = (none, true)) ∧
    (1048576 ≤ size →
      download_video url i (.file size) =
        (some ("video_" ++ toString (i + 1) ++ ".mp4"), false)) := by
  rcases hfid : extract_drive_file_id url with _ | fid
  · rw [hfid] at hid; simp at hid
  · constructor
    · intro hlt
      simp [download_video, hfid, hlt]
    · intro hge
      simp [download_video, hfid, Nat.not_lt.mpr hge]

/-- Witness for C6 at a concrete URL with a small and a large file. -/
theorem download_size_gate_witness :
    download_video "https://drive.google.com/file/d/ABC/view" 0
        (.file 1048575) = (none, true) ∧
    download_video "https://drive.google.com/file/d/ABC/view" 0
        (.file 1048576) =
      (some ("video_" ++ toString (0 + 1) ++ ".mp4"), false) :=
  ⟨(download_size_gate "https://drive.google.com/file/d/ABC/view" 0 1048575
      (by decide)).1 (by decide),
   (download_size_gate "https://drive.google.com/file/d/ABC/view" 0 1048576
      (by decide)).2 (by decide)⟩

/-- C1 (code bug): on a two-link queue where the first item's download
fails and the second item uploads successfully, the run prunes one link
line from the front of the file — the FAILED item's line — so the failed
entry does not remain in the queue, while the successfully uploaded
item's line does. -/
theorem failed_item_line_pruned :
    (run defaultConfig ⟨719163, 600⟩ [] .failure
      (fun i => if i = 0 then ⟨.error, .failure⟩
                else ⟨.file 2000000, .success "vid"⟩)
      { channel_id := "c", uploaded_count := 0, last_run_date := none,
        upload_history := [] }
      ["https://drive.google.com/file/d/AAA/view\n",
       "https://drive.google.com/file/d/BBB/view\n"]).results.length = 1 ∧
    (run defaultConfig ⟨719163, 600⟩ [] .failure
      (fun i => if i = 0 then ⟨.error, .failure⟩
                else ⟨.file 2000000, .success "vid"⟩)
      { channel_id := "c", uploaded_count := 0, last_run_date := none,
        upload_history := [] }
      ["https://drive.google.com/file/d/AAA/view\n",
       "https://drive.google.com/file/d/BBB/view\n"]).queue =
      ["https://drive.google.com/file/d/BBB/view\n"] := by
  decide

/-- C3: whenever the schedule computation succeeds, the local publish
time has minute of hour `(base_minute + (i % batch_size) * gap_minutes) % 60`,
hour of day `base_hour` incremented by the integer overflow of that sum,
date exactly 180 days after the current date, and the UTC string sent to
the API is the rendering of the local time minus the fixed 6-hour
(360-minute) offset. -/
theorem schedule_formula (cfg : Config) (now : PyDateTime) (i : Nat)
    (hs ms : String) (H M : Nat) (utcs : String) (localdt : PyDateTime)
    (hsplit : pySplitColon cfg.schedule_time = [hs, ms])
    (hH : pyInt hs = some H) (hM : pyInt ms = some M)
    (hcalc : calculate_schedule_time cfg now i = some (utcs, localdt)) :
    localdt.minuteOfDay % 60 =
      (M + (i % cfg.videos_per_day) * cfg.schedule_gap_minutes) % 60 ∧
    localdt.minuteOfDay / 60 =
      H + (M + (i % cfg.videos_per_day) * cfg.schedule_gap_minutes) / 60 ∧
    localdt.day = now.day + 180 ∧
    utcs = strftimeUTC (subMinutes localdt 360) ∧
    totalMinutes (subMinutes localdt 360) = totalMinutes localdt - 360 := by
  simp only [calculate_schedule_time, hsplit, hH, hM, addDays, replaceHM] at hcalc
  set g := i % cfg.videos_per_day * cfg.schedule_gap_minutes with hg
  by_cases hov : 60 ≤ M + g
  · rw [if_pos hov] at hcalc
    by_cases hrange : H + (M + g) / 60 ≤ 23 && (M + g) % 60 ≤ 59
    · rw [if_pos hrange] at hcalc
      simp only [Option.some.injEq, Prod.mk.injEq] at hcalc
      obtain ⟨hu, hl⟩ := hcalc
      subst hl
      refine ⟨by simp; omega, by simp; omega, rfl, hu.symm,
        totalMinutes_subMinutes _ _⟩
    · rw [if_neg hrange] at hcalc
      exact absurd hcalc (by simp)
  · rw [if_neg hov] at hcalc
    by_cases hrange : H ≤ 23 && M + g ≤ 59
    · rw [if_pos hrange] at hcalc
      simp only [Option.some.injEq, Prod.mk.injEq] at hcalc
      obtain ⟨hu, hl⟩ := hcalc
      subst hl
      simp only [Bool.and_eq_true, decide_eq_true_eq] at hrange
      refine ⟨by simp; omega, by simp; omega, rfl, hu.symm,
        totalMinutes_subMinutes _ _⟩
    · rw [if_neg hrange] at hcalc
      exact absurd hcalc (by simp)

/-- Witness for C3 with the hard-coded configuration at batch index 2. -/
theorem schedule_formula_witness :
    pySplitColon defaultConfig.schedule_time = ["20", "00"] ∧
    ({ day := 719343, minuteOfDay := 1230 } : PyDateTime).minuteOfDay % 60 =
      (0 + (2 % defaultConfig.videos_per_day) *
        defaultConfig.schedule_gap_minutes) % 60 ∧
    ({ day := 719343, minuteOfDay := 1230 } : PyDateTime).minuteOfDay / 60 =
      20 + (0 + (2 % defaultConfig.videos_per_day) *
        defaultConfig.schedule_gap_minutes) / 60 ∧
    ({ day := 719343, minuteOfDay := 1230 } : PyDateTime).day = 719163 + 180 := by
  have h := schedule_formula defaultConfig ⟨719163, 600⟩ 2 "20" "00" 20 0
    "1970-06-30T14:30:00.000Z" ⟨719343, 1230⟩
    (by decide) (by decide) (by decide) (by decide)
  exact ⟨by decide, h.1, h.2.1, h.2.2.1⟩

/-- C9: the metadata built for every uploaded item has title equal to the
local filename without its extension, empty description, empty tag list,
the fixed category `"22"`, initial privacy `"private"`, the kids flag
cleared, and `publishAt` equal to the schedule computation's UTC value,
which is rendered with millisecond precision (it ends in `".000Z"`). -/
theorem upload_metadata (now : PyDateTime) (path : String) (i : Nat) :
    ∃ bd : PyDateTime,
      calculate_schedule_time defaultConfig now i =
        some (strftimeUTC (subMinutes bd 360), bd) ∧
      buildBody defaultConfig now path i = some
        { snippet := { title := pathStem path, description := "",
                       tags := [], categoryId := "22" },
          status := { privacyStatus := "private",
                      publishAt := strftimeUTC (subMinutes bd 360),
                      selfDeclaredMadeForKids := false } } ∧
      (∃ s, strftimeUTC (subMinutes bd 360) = s ++ ".000Z") := by
  refine ⟨⟨now.day + 180, 1200 + (i % 3) * 15⟩, calculate_default now i, ?_, ?_⟩
  · simp only [buildBody, calculate_default now i]
  · refine ⟨padZ 4 (civilFromOrdinal (subMinutes ⟨now.day + 180,
      1200 + (i % 3) * 15⟩ 360).day).1 ++ "-" ++
      padZ 2 (civilFromOrdinal (subMinutes ⟨now.day + 180,
        1200 + (i % 3) * 15⟩ 360).day).2.1 ++ "-" ++
      padZ 2 (civilFromOrdinal (subMinutes ⟨now.day + 180,
        1200 + (i % 3) * 15⟩ 360).day).2.2 ++ "T" ++
      padZ 2 ((subMinutes ⟨now.day + 180,
        1200 + (i % 3) * 15⟩ 360).minuteOfDay / 60) ++ ":" ++
      padZ 2 ((subMinutes ⟨now.day + 180,
        1200 + (i % 3) * 15⟩ 360).minuteOfDay % 60) ++ ":00", ?_⟩
    simp only [strftimeUTC]
    have hz : (":00.000Z" : String) = ":00" ++ ".000Z" := by decide
    rw [hz]
    simp [String.append_assoc]

/-- Failing endpoint responses leave the info dictionary untouched. -/
lemma firstIp_failures (l : List IpResponse) (info : IpInfo)
    (h : ∀ r ∈ l, r = IpResponse.failure) : firstIp l info = info := by
  induction l with
  | nil => rfl
  | cons r rest ih =>
    have hr : r = IpResponse.failure := h r (by simp)
    subst hr
    exact ih (fun r hm => h r (by simp [hm]))

/-- The queue, upload results, count and persistence flag of a run do not
depend on the IP or geolocation responses; only the session record's
`ip_info` field does. -/
lemma run_ignores_ip (cfg : Config) (now : PyDateTime) (envs : Nat → ItemEnv)
    (t : Tracker) (q : List String) (resps resps' : List IpResponse)
    (geo geo' : GeoResponse) :
    (run cfg now resps geo envs t q).queue =
      (run cfg now resps' geo' envs t q).queue ∧
    (run cfg now resps geo envs t q).results =
      (run cfg now resps' geo' envs t q).results ∧
    (run cfg now resps geo envs t q).tracker.uploaded_count =
      (run cfg now resps' geo' envs t q).tracker.uploaded_count ∧
    (run cfg now resps geo envs t q).persisted =
      (run cfg now resps' geo' envs t q).persisted := by
  by_cases h : (load_video_links q).isEmpty <;> simp [run, h]

/-- C7: when every queried IP-echo endpoint fails, the reported fields
(ip, city, region, country, org) are all `"Unknown"` and the geolocation
lookup is skipped (its response is never consulted); moreover, for any IP
and geolocation responses whatsoever, the run completes with the same
queue, results, count and persistence flag — an IP or geo failure never
changes the pipeline's outcome. -/
theorem ip_failures_cosmetic (resps : List IpResponse) (geo : GeoResponse)
    (h : ∀ r ∈ resps, r = IpResponse.failure) :
    get_my_ip_info resps geo = unknownIpInfo ∧
    (∀ geo', get_my_ip_info resps geo' = get_my_ip_info resps geo) ∧
    (∀ (cfg : Config) (now : PyDateTime) (envs : Nat → ItemEnv)
        (t : Tracker) (q : List String) (resps' : List IpResponse)
        (geo' : GeoResponse),
      (run cfg now resps geo envs t q).queue =
        (run cfg now resps' geo' envs t q).queue ∧
      (run cfg now resps geo envs t q).results =
        (run cfg now resps' geo' envs t q).results ∧
      (run cfg now resps geo envs t q).tracker.uploaded_count =
        (run cfg now resps' geo' envs t q).tracker.uploaded_count ∧
      (run cfg now resps geo envs t q).persisted =
        (run cfg now resps' geo' envs t q).persisted) := by
  have hf : ∀ geoX, get_my_ip_info resps geoX = unknownIpInfo := by
    intro geoX
    have htake : ∀ r ∈ resps.take 2, r = IpResponse.failure :=
      fun r hm => h r (List.take_subset 2 resps hm)
    simp [get_my_ip_info, firstIp_failures _ _ htake, unknownIpInfo]
  exact ⟨hf geo, fun geo' => (hf geo').trans (hf geo).symm,
    fun cfg now envs t q resps' geo' =>
      run_ignores_ip cfg now envs t q resps resps' geo geo'⟩

/-- Witness for C7: three failing endpoints yield all-`"Unknown"` fields
and an unchanged pipeline outcome on a concrete queue. -/
theorem ip_failures_cosmetic_witness :
    get_my_ip_info [.failure, .failure, .failure] .failure = unknownIpInfo ∧
    (run defaultConfig ⟨719163, 600⟩ [.failure, .failure, .failure] .failure
        (fun _ => ⟨.file 2000000, .success "vid"⟩)
        { channel_id := "c", uploaded_count := 0, last_run_date := none,
          upload_history := [] }
        ["https://drive.google.com/file/d/AAA/view\n"]).queue =
      (run defaultConfig ⟨719163, 600⟩ [.json (some "1.2.3.4") none]
        (.json true (some "Dhaka") none none none)
        (fun _ => ⟨.file 2000000, .success "vid"⟩)
        { channel_id := "c", uploaded_count := 0, last_run_date := none,
          upload_history := [] }
        ["https://drive.google.com/file/d/AAA/view\n"]).queue := by
  have h := ip_failures_cosmetic [.failure, .failure, .failure] .failure
    (by decide)
  exact ⟨h.1, (h.2.2 defaultConfig ⟨719163, 600⟩
    (fun _ => ⟨.file 2000000, .success "vid"⟩)
    { channel_id := "c", uploaded_count := 0, last_run_date := none,
      upload_history := [] }
    ["https://drive.google.com/file/d/AAA/view\n"]
    [.json (some "1.2.3.4") none]
    (.json true (some "Dhaka") none none none)).1⟩

/-- Prefix stripping succeeds exactly on lists that extend the pattern. -/
lemma stripPre_eq_some (pat : List Char) :
    ∀ (s t : List Char), stripPre pat s = some t ↔ s = pat ++ t := by
  induction pat with
  | nil =>
    intro s t
    simp [stripPre]
  | cons p ps ih =>
    intro s t
    cases s with
    | nil => simp [stripPre]
    | cons c cs =>
      simp only [stripPre]
      by_cases h : p = c
      · subst h
        simp [ih]
      · rw [if_neg h]
        simp only [List.cons_append, List.cons.injEq]
        constructor
        · intro hx
          exact absurd hx (by simp)
        · intro hx
          exact absurd hx.1.symm h

/-- A URL contains one of the known shapes for the literal `pat`: an
occurrence of `pat` immediately followed by at least one id character. -/
def hasShape (pat : String) (url : String) : Prop :=
  ∃ pre c post, url.data = pre ++ pat.data ++ c :: post ∧ isIdChar c = true

/-- The pattern search succeeds exactly when the text contains the
pattern followed by at least one id character. -/
lemma searchPat_isSome_iff (pat : List Char) (s : List Char) :
    (searchPat pat s).isSome = true ↔
      ∃ pre c post, s = pre ++ pat ++ c :: post ∧ isIdChar c = true := by
  constructor
  · induction s with
    | nil =>
      intro h
      simp [searchPat] at h
    | cons a rest ih =>
      intro h
      rcases hsp : stripPre pat (a :: rest) with _ | tl
      · simp only [searchPat, hsp] at h
        obtain ⟨pre, c, post, hcat, hc⟩ := ih h
        exact ⟨a :: pre, c, post, by simp [hcat], hc⟩
      · cases tl with
        | nil =>
          simp only [searchPat, hsp] at h
          obtain ⟨pre, c, post, hcat, hc⟩ := ih h
          exact ⟨a :: pre, c, post, by simp [hcat], hc⟩
        | cons c tail =>
          by_cases hid : isIdChar c
          · exact ⟨[], c, tail, by
              simpa using (stripPre_eq_some pat (a :: rest) (c :: tail)).mp hsp,
              hid⟩
          · simp only [searchPat, hsp, if_neg hid] at h
            obtain ⟨pre, c', post, hcat, hc⟩ := ih h
            exact ⟨a :: pre, c', post, by simp [hcat], hc⟩
  · rintro ⟨pre, c, post, rfl, hc⟩
    induction pre with
    | nil =>
      cases hp : pat with
      | nil =>
        simp [searchPat, stripPre, hc, List.takeWhile]
      | cons p ps =>
        have hsp : stripPre (p :: ps) (p :: (ps ++ c :: post)) =
            some (c :: post) :=
          (stripPre_eq_some (p :: ps) _ _).mpr (by simp)
        subst hp
        show (searchPat (p :: ps) (p :: (ps ++ c :: post))).isSome = true
        simp only [searchPat, hsp, hc, if_true, Option.isSome_some]
    | cons a pre' ih =>
      have hrw : (a :: pre') ++ pat ++ c :: post =
          a :: (pre' ++ pat ++ c :: post) := by simp
      rw [hrw]
      rcases hsp : stripPre pat (a :: (pre' ++ pat ++ c :: post)) with _ | tl
      · simp only [searchPat, hsp]
        exact ih
      · cases tl with
        | nil =>
          simp only [searchPat, hsp]
          exact ih
        | cons c' tail' =>
          by_cases hid : isIdChar c'
          · simp only [searchPat, hsp, hid, if_true]
            rfl
          · simp only [searchPat, hsp, if_neg hid]
            exact ih

/-- C8: the file-id extraction returns an identifier exactly when the URL
contains one of the three known shapes (`/file/d/<id>`, `id=<id>`,
`/d/<id>`); the three patterns are tried in that order; and a URL that
yields no identifier makes `download_video` skip the entry — it returns
no path and touches nothing, whatever the download environment would have
done. -/
theorem extract_iff_known_shape (url : String) :
    ((extract_drive_file_id url).isSome = true ↔
      (hasShape "/file/d/" url ∨ hasShape "id=" url ∨ hasShape "/d/" url)) ∧
    (∀ g, searchPat "/file/d/".data url.data = some g →
      extract_drive_file_id url = some (String.mk g)) ∧
    (searchPat "/file/d/".data url.data = none →
      ∀ g, searchPat "id=".data url.data = some g →
        extract_drive_file_id url = some (String.mk g)) ∧
    (searchPat "/file/d/".data url.data = none →
      searchPat "id=".data url.data = none →
      extract_drive_file_id url =
        Option.map String.mk (searchPat "/d/".data url.data)) ∧
    (extract_drive_file_id url = none →
      ∀ (idx : Nat) (outcome : FetchOutcome),
        download_video url idx outcome = (none, false)) := by
  refine ⟨?_, ?_, ?_, ?_, ?_⟩
  · simp only [hasShape]
    rw [← searchPat_isSome_iff "/file/d/".data url.data,
        ← searchPat_isSome_iff "id=".data url.data,
        ← searchPat_isSome_iff "/d/".data url.data]
    rcases h1 : searchPat "/file/d/".data url.data with _ | g1 <;>
      rcases h2 : searchPat "id=".data url.data with _ | g2 <;>
        rcases h3 : searchPat "/d/".data url.data with _ | g3 <;>
          simp [extract_drive_file_id, h1, h2, h3]
  · intro g hg
    simp [extract_drive_file_id, hg]
  · intro h1 g hg
    simp [extract_drive_file_id, h1, hg]
  · intro h1 h2
    rcases h3 : searchPat "/d/".data url.data with _ | g3 <;>
      simp [extract_drive_file_id, h1, h2, h3]
  · intro hnone idx outcome
    simp [download_video, hnone]

/-- Witness for C8: a matching URL is accepted (via the shape
characterization) and a non-matching URL is skipped without download. -/
theorem extract_iff_known_shape_witness :
    (extract_drive_file_id "https://drive.google.com/file/d/ABC/view").isSome
      = true ∧
    download_video "https://example.com/watch?v=123" 0 (.file 9999999) =
      (none, false) := by
  constructor
  · exact (extract_iff_known_shape
      "https://drive.google.com/file/d/ABC/view").1.mpr
      (Or.inl ⟨"https://drive.google.com".data, 'A', "BC/view".data,
        by decide, by decide⟩)
  · exact (extract_iff_known_shape "https://example.com/watch?v=123").2.2.2.2
      (by decide) 0 (.file 9999999)

/-- The batch loop increments the running count once per collected
result: final count minus initial count equals results gained. -/
lemma processBatch_count (cfg : Config) (now : PyDateTime)
    (envs : Nat → ItemEnv) :
    ∀ (urls : List String) (i count : Nat) (acc : List UploadResult),
      (processBatch cfg now envs urls i count acc).2 + acc.length =
        count + (processBatch cfg now envs urls i count acc).1.length := by
  intro urls
  induction urls with
  | nil =>
    intro i count acc
    simp [processBatch]
  | cons url rest ih =>
    intro i count acc
    rcases hd : (download_video url i (envs i).fetch).1 with _ | path
    · simp only [processBatch, hd]
      exact ih (i + 1) count acc
    · rcases hu : upload_video cfg now path i (envs i).upload with _ | r
      · simp only [processBatch, hd, hu]
        exact ih (i + 1) count acc
      · simp only [processBatch, hd, hu]
        have := ih (i + 1) (count + 1) (acc ++ [r])
        simp only [List.length_append, List.length_cons,
          List.length_nil] at this
        omega

/-- A run over an empty link list changes nothing and does not persist. -/
lemma run_empty (cfg : Config) (now : PyDateTime) (resps : List IpResponse)
    (geo : GeoResponse) (envs : Nat → ItemEnv) (t : Tracker)
    (q : List String) (h : (load_video_links q).isEmpty = true) :
    run cfg now resps geo envs t q =
      { tracker := t, queue := q, results := [], persisted := false } := by
  simp [run, h]

/-- A run over a nonempty link list persists, adds the number of
successful uploads to the count, and appends one session record. -/
lemma run_nonempty (cfg : Config) (now : PyDateTime)
    (resps : List IpResponse) (geo : GeoResponse) (envs : Nat → ItemEnv)
    (t : Tracker) (q : List String)
    (h : (load_video_links q).isEmpty = false) :
    (run cfg now resps geo envs t q).persisted = true ∧
    (run cfg now resps geo envs t q).tracker.uploaded_count =
      t.uploaded_count + (run cfg now resps geo envs t q).results.length ∧
    (run cfg now resps geo envs t q).tracker.upload_history =
      t.upload_history ++
        [{ videos := (run cfg now resps geo envs t q).results,
           ip_info := get_my_ip_info resps geo }] := by
  have hc := processBatch_count cfg now envs
    ((load_video_links q).take (min cfg.videos_per_day
      (load_video_links q).length)) 0 t.uploaded_count []
  simp only [List.length_nil, Nat.add_zero] at hc
  refine ⟨by simp [run, h], ?_, by simp [run, h]⟩
  simp only [run, h, Bool.false_eq_true, if_false]
  exact hc

/-- Iterated accounting: over any sequence of runs, the final count is
the initial count plus the per-run success counts, and the history grows
by one record per persisted run. -/
lemma runMany_accounting (cfg : Config) (es : List RunEnv) :
    ∀ (t : Tracker) (q : List String),
      (runMany cfg es t q).1.uploaded_count =
        t.uploaded_count + ((runTrace cfg es t q).map Prod.fst).sum ∧
      (runMany cfg es t q).1.upload_history.length =
        t.upload_history.length +
          (runTrace cfg es t q).countP (fun p => p.2) := by
  induction es with
  | nil =>
    intro t q
    simp [runMany, runTrace]
  | cons e es ih =>
    intro t q
    simp only [runMany, runTrace, List.map_cons, List.sum_cons,
      List.countP_cons]
    by_cases h : (load_video_links q).isEmpty
    · rw [run_empty cfg e.now e.resps e.geo e.items t q h]
      have := ih t q
      simp only [List.length_nil] at this ⊢
      simp [this.1, this.2]
    · have hr := run_nonempty cfg e.now e.resps e.geo e.items t q
        (by simpa using h)
      have := ih (run cfg e.now e.resps e.geo e.items t q).tracker
        (run cfg e.now e.resps e.geo e.items t q).queue
      rw [this.1, this.2, hr.2.1, hr.2.2, hr.1]
      simp only [List.length_append, List.length_cons, List.length_nil,
        if_true]
      refine ⟨by omega, ?_⟩
      omega

/-- C5: a run that reaches the persistence step increases
`uploaded_count` by exactly the number of items that succeeded at both
download and upload, and appends exactly one session record to
`upload_history`; a run that exits early on an empty queue changes
neither; hence after any sequence of runs the count equals the initial
count plus the sum of per-run successes, and the history length equals
the initial length plus the number of persisted runs. -/
theorem tracker_accounting (cfg : Config) (es : List RunEnv) (t : Tracker)
    (q : List String) :
    (∀ (now : PyDateTime) (resps : List IpResponse) (geo : GeoResponse)
        (envs : Nat → ItemEnv),
      ((run cfg now resps geo envs t q).persisted = true →
        (run cfg now resps geo envs t q).tracker.uploaded_count =
          t.uploaded_count +
            (run cfg now resps geo envs t q).results.length ∧
        (run cfg now resps geo envs t q).tracker.upload_history.length =
          t.upload_history.length + 1) ∧
      (load_video_links q = [] →
        (run cfg now resps geo envs t q).tracker = t ∧
        (run cfg now resps geo envs t q).queue = q ∧
        (run cfg now resps geo envs t q).persisted = false)) ∧
    (runMany cfg es t q).1.uploaded_count =
      t.uploaded_count + ((runTrace cfg es t q).map Prod.fst).sum ∧
    (runMany cfg es t q).1.upload_history.length =
      t.upload_history.length +
        (runTrace cfg es t q).countP (fun p => p.2) := by
  refine ⟨fun now resps geo envs => ⟨?_, ?_⟩, (runMany_accounting cfg es t q).1,
    (runMany_accounting cfg es t q).2⟩
  · intro hp
    by_cases h : (load_video_links q).isEmpty
    · rw [run_empty cfg now resps geo envs t q h] at hp
      simp at hp
    · have hr := run_nonempty cfg now resps geo envs t q (by simpa using h)
      exact ⟨hr.2.1, by rw [hr.2.2]; simp⟩
  · intro hq
    rw [run_empty cfg now resps geo envs t q (by simp [hq])]
    exact ⟨rfl, rfl, rfl⟩

/-- Concrete tracker used by the C5 witness. -/
def wTracker : Tracker :=
  { channel_id := "c", uploaded_count := 7, last_run_date := none,
    upload_history := [] }

/-- Concrete per-item outcomes used by the C5 witness: item 0 succeeds,
item 1 fails at download. -/
def wItems : Nat → ItemEnv := fun i =>
  if i = 0 then ⟨.file 2000000, .success "vid"⟩ else ⟨.error, .failure⟩

/-- Concrete run environment used by the C5 witness. -/
def wEnv : RunEnv :=
  { now := ⟨719163, 600⟩, resps := [], geo := .failure, items := wItems }

/-- Concrete two-link queue used by the C5 witness. -/
def wQueue : List String :=
  ["https://drive.google.com/file/d/AAA/view\n",
   "https://drive.google.com/file/d/BBB/view\n"]

/-- Witness for C5: a concrete persisted run adds its success count, an
empty-queue run changes nothing, and the iterated accounting holds on a
one-run sequence. -/
theorem tracker_accounting_witness :
    ((run defaultConfig ⟨719163, 600⟩ [] .failure wItems wTracker
        wQueue).tracker.uploaded_count =
      wTracker.uploaded_count +
        (run defaultConfig ⟨719163, 600⟩ [] .failure wItems wTracker
          wQueue).results.length) ∧
    (run defaultConfig ⟨719163, 600⟩ [] .failure wItems wTracker
        []).tracker = wTracker ∧
    (runMany defaultConfig [wEnv] wTracker wQueue).1.uploaded_count =
      wTracker.uploaded_count +
        ((runTrace defaultConfig [wEnv] wTracker wQueue).map Prod.fst).sum := by
  refine ⟨?_, ?_, ?_⟩
  · exact (((tracker_accounting defaultConfig [wEnv] wTracker wQueue).1
      ⟨719163, 600⟩ [] .failure wItems).1 (by decide)).1
  · exact (((tracker_accounting defaultConfig [wEnv] wTracker []).1
      ⟨719163, 600⟩ [] .failure wItems).2 (by decide)).1
  · exact (tracker_accounting defaultConfig [wEnv] wTracker wQueue).2.1

end Uploader
